import Mathlib

/-!
# Verification of the Mizan data-collector (`src/collector.py`)

A shallow embedding of the `Record` dataclass and the `DataCollector`
class, together with proofs of the spec's claims about them.

The storage file is modelled at the level `json.loads` sees it:
`FileState.absent` is a missing file, `FileState.invalid` a file whose
text raises `json.JSONDecodeError`, and `FileState.valid j` a file whose
text parses to the JSON value `j`.  Exceptions are modelled with
`Except`; the only exceptions the collector code can surface are
`TypeError` (from `Record(**item)` / iteration) and `OSError` (from
`Path.write_text`), since `json.JSONDecodeError` is caught in `_load`.
-/

set_option autoImplicit false

namespace Mizan

/-- A parsed JSON value, as produced by a successful `json.loads`.
Objects carry their key/value pairs in order; a value produced by a real
parse never has duplicate keys in an object. -/
inductive Json where
  | null : Json
  | bool : Bool → Json
  | num : Int → Json
  | str : String → Json
  | arr : List Json → Json
  | obj : List (String × Json) → Json

/-- A Python exception surfaced by the collector code. -/
inductive PyError where
  | typeError : String → PyError
  | osError : PyError

/-- The state of the backing storage file, as observed through
`Path.exists` / `Path.read_text` / `json.loads`. -/
inductive FileState where
  | absent : FileState
  | invalid : FileState
  | valid : Json → FileState

/-- Whether the storage file exists (`Path.exists`). -/
def FileState.fileExists : FileState → Bool
  | .absent => false
  | .invalid => true
  | .valid _ => true

/-- The `Record` dataclass (src/collector.py lines 18-27).  Python
dataclasses do not enforce the annotated field types at runtime, so each
field holds an arbitrary JSON-representable value; `add_record` always
stores a string/int/str/str/str/str tuple, but `_load` will accept any
values. -/
structure Record where
  name : Json
  age : Json
  email : Json
  phone : Json
  notes : Json
  timestamp : Json

/-- The six field names of `Record`, in declaration order. -/
def requiredFields : List String :=
  ["name", "age", "email", "phone", "notes", "timestamp"]

/-- Look a key up in a parsed JSON object (Python dict access; a parsed
object has unique keys, so first occurrence is the occurrence). -/
def lookupField (fields : List (String × Json)) (k : String) : Option Json :=
  (fields.find? (fun kv => kv.1 == k)).map (fun kv => kv.2)

/-- `Record(**item)` for a mapping `item`: binding keyword arguments
raises `TypeError` on an unexpected keyword, then on a missing required
argument; otherwise it builds the dataclass instance. -/
def recordOfObj (fields : List (String × Json)) : Except PyError Record :=
  match fields.find? (fun kv => !(requiredFields.contains kv.1)) with
  | some kv => .error (.typeError ("unexpected keyword argument: " ++ kv.1))
  | none =>
    match lookupField fields "name" with
    | none => .error (.typeError "missing required argument")
    | some vName =>
    match lookupField fields "age" with
    | none => .error (.typeError "missing required argument")
    | some vAge =>
    match lookupField fields "email" with
    | none => .error (.typeError "missing required argument")
    | some vEmail =>
    match lookupField fields "phone" with
    | none => .error (.typeError "missing required argument")
    | some vPhone =>
    match lookupField fields "notes" with
    | none => .error (.typeError "missing required argument")
    | some vNotes =>
    match lookupField fields "timestamp" with
    | none => .error (.typeError "missing required argument")
    | some vTimestamp =>
      .ok { name := vName, age := vAge, email := vEmail, phone := vPhone,
            notes := vNotes, timestamp := vTimestamp }

/-- `Record(**item)` on an arbitrary JSON value: a non-mapping after
`**` raises `TypeError`. -/
def recordOfJson : Json → Except PyError Record
  | .obj fields => recordOfObj fields
  | _ => .error (.typeError "argument after ** must be a mapping")

/-- The sequence `for item in data` iterates over when `data` came from
`json.loads`: a list yields its elements, a string its characters (as
one-character strings), a dict its keys; `None`, booleans and numbers
raise `TypeError`. -/
def pyIter : Json → Except PyError (List Json)
  | .arr items => .ok items
  | .str s => .ok (s.data.map (fun c => Json.str (String.singleton c)))
  | .obj fields => .ok (fields.map (fun kv => Json.str kv.1))
  | .null => .error (.typeError "NoneType object is not iterable")
  | .bool _ => .error (.typeError "bool object is not iterable")
  | .num _ => .error (.typeError "int object is not iterable")

/-- The list comprehension `[Record(**item) for item in data]`: items are
converted left to right and the first exception propagates. -/
def mapRecords : List Json → Except PyError (List Record)
  | [] => .ok []
  | item :: rest =>
    match recordOfJson item with
    | .error e => .error e
    | .ok r =>
      match mapRecords rest with
      | .error e => .error e
      | .ok rs => .ok (r :: rs)

/-- `DataCollector._load` (src/collector.py lines 37-44): missing file →
`[]`; `json.JSONDecodeError` caught → `[]`; otherwise build one `Record`
per iterated item, exceptions propagating. -/
def _load (fs : FileState) : Except PyError (List Record) :=
  match fs with
  | .absent => .ok []
  | .invalid => .ok []
  | .valid j =>
    match pyIter j with
    | .error e => .error e
    | .ok items => mapRecords items

/-- The `DataCollector` object's state. -/
structure DataCollector where
  storage_path : String
  records : List Record

/-- The module-level default storage path. -/
def DEFAULT_STORAGE : String := "collected_data.json"

/-- `DataCollector.__init__` (src/collector.py lines 33-35): stores the
path and runs `_load` immediately; an exception from `_load` propagates
and no object is produced.  The constructor performs no write, so the
resulting file state is the input file state, returned alongside the
object to make that explicit. -/
def construct (storage_path : String) (fs : FileState) :
    Except PyError (DataCollector × FileState) :=
  match _load fs with
  | .error e => .error e
  | .ok rs => .ok ({ storage_path := storage_path, records := rs }, fs)

/-- `dataclasses.asdict(record)`: a mapping from field name to value, in
field declaration order. -/
def asdict (r : Record) : Json :=
  .obj [("name", r.name), ("age", r.age), ("email", r.email),
        ("phone", r.phone), ("notes", r.notes), ("timestamp", r.timestamp)]

/-- The JSON value `_save` serializes: `[asdict(record) for record in
self.records]`. -/
def dumpRecords (rs : List Record) : Json :=
  .arr (rs.map asdict)

/-- `DataCollector._save` (src/collector.py lines 59-63): overwrite the
storage file with the serialization of the whole record list.
`writeOk` models whether `Path.write_text` succeeds; on failure an
`OSError` propagates.  (A failed `write_text` may leave the file in an
unspecified state; no claim proved here depends on the failure-case file
contents, and the model keeps the previous state.) -/
def _save (c : DataCollector) (fs : FileState) (writeOk : Bool) :
    FileState × Except PyError Unit :=
  if writeOk then (.valid (dumpRecords c.records), .ok ()) else (fs, .error .osError)

/-- `DataCollector.add_record` (src/collector.py lines 46-57): build the
new `Record` with the supplied field values and the current timestamp,
append it to `self.records` (a mutation that is not rolled back), then
call `_save`; an exception from `_save` propagates, otherwise the new
record is returned. -/
def add_record (c : DataCollector) (fs : FileState) (writeOk : Bool)
    (name : String) (age : Int) (email phone notes : String)
    (timestamp : String) : DataCollector × FileState × Except PyError Record :=
  let record : Record :=
    { name := .str name, age := .num age, email := .str email,
      phone := .str phone, notes := .str notes, timestamp := .str timestamp }
  let c' : DataCollector := { c with records := c.records ++ [record] }
  match _save c' fs writeOk with
  | (fs', .ok _) => (c', fs', .ok record)
  | (fs', .error e) => (c', fs', .error e)

/-- A wall-clock reading, the components `datetime.now()` exposes at
second precision.  `datetime` guarantees `1 ≤ year ≤ 9999` and
two-digit ranges for the remaining components. -/
structure DateTime where
  year : Nat
  month : Nat
  day : Nat
  hour : Nat
  minute : Nat
  second : Nat

/-- The decimal digit character for `n % 10`. -/
def digitChar (n : Nat) : Char :=
  match n with
  | 0 => '0' | 1 => '1' | 2 => '2' | 3 => '3' | 4 => '4'
  | 5 => '5' | 6 => '6' | 7 => '7' | 8 => '8' | _ => '9'

/-- Modelled from the spec: the standard library call
`datetime.now().isoformat(timespec="seconds")` (the `datetime` module is
not part of this repository).  Produces the zero-padded
`YYYY-MM-DDTHH:MM:SS` rendering, which agrees with CPython on the whole
`datetime` range (year ≤ 9999, other components ≤ 99). -/
def isoformatSeconds (d : DateTime) : String :=
  String.mk
    [digitChar (d.year / 1000 % 10), digitChar (d.year / 100 % 10),
     digitChar (d.year / 10 % 10), digitChar (d.year % 10), '-',
     digitChar (d.month / 10 % 10), digitChar (d.month % 10), '-',
     digitChar (d.day / 10 % 10), digitChar (d.day % 10), 'T',
     digitChar (d.hour / 10 % 10), digitChar (d.hour % 10), ':',
     digitChar (d.minute / 10 % 10), digitChar (d.minute % 10), ':',
     digitChar (d.second / 10 % 10), digitChar (d.second % 10)]

/-- A valid ISO-8601 timestamp at second precision, in the format the
spec names: `YYYY-MM-DDTHH:MM:SS`. -/
def isISO8601 (s : String) : Bool :=
  match s.data with
  | [y1, y2, y3, y4, s1, mo1, mo2, s2, d1, d2, t, h1, h2, s3, mi1, mi2, s4, se1, se2] =>
    y1.isDigit && y2.isDigit && y3.isDigit && y4.isDigit && s1 == '-' &&
    mo1.isDigit && mo2.isDigit && s2 == '-' && d1.isDigit && d2.isDigit &&
    t == 'T' && h1.isDigit && h2.isDigit && s3 == ':' &&
    mi1.isDigit && mi2.isDigit && s4 == ':' && se1.isDigit && se2.isDigit
  | _ => false

/-- The arguments of one interactive `add_record` call, together with
the wall-clock reading `datetime.now()` returns during it. -/
structure AddArgs where
  name : String
  age : Int
  email : String
  phone : String
  notes : String
  now : DateTime

/-- The `Record` an `add_record` call with these arguments creates. -/
def mkRecord (a : AddArgs) : Record :=
  { name := .str a.name, age := .num a.age, email := .str a.email,
    phone := .str a.phone, notes := .str a.notes,
    timestamp := .str (isoformatSeconds a.now) }

/-- Run a sequence of successful `add_record` calls (every save
succeeding), returning the final collector, the final file state, and
the list of per-call results. -/
def runAdds (c : DataCollector) (fs : FileState) :
    List AddArgs → DataCollector × FileState × List (Except PyError Record)
  | [] => (c, fs, [])
  | a :: rest =>
    let step := add_record c fs true a.name a.age a.email a.phone a.notes
      (isoformatSeconds a.now)
    let next := runAdds step.1 step.2.1 rest
    (next.1, next.2.1, step.2.2 :: next.2.2)

/-- One character of a JSON string as `json.dumps(..., ensure_ascii=False)`
emits it: backslash, double quote and control characters below 0x20 are
escaped (with the usual short forms), every other character — in
particular every non-ASCII character — is written natively. -/
def escapeChar (c : Char) : String :=
  if c = '\\' then "\\\\"
  else if c = '\"' then "\\\""
  else if c.toNat = 8 then "\\b"
  else if c.toNat = 9 then "\\t"
  else if c.toNat = 10 then "\\n"
  else if c.toNat = 12 then "\\f"
  else if c.toNat = 13 then "\\r"
  else if c.toNat < 32 then
    "\\u00" ++ String.mk [Nat.digitChar (c.toNat / 16), Nat.digitChar (c.toNat % 16)]
  else String.singleton c

/-- A JSON string literal as `json.dumps(..., ensure_ascii=False)` emits it. -/
def dumpString (s : String) : String :=
  "\"" ++ String.join (s.data.map escapeChar) ++ "\""

/-- `indent=2` indentation at a given nesting level. -/
def indentStr (lvl : Nat) : String :=
  String.mk (List.replicate (2 * lvl) ' ')

mutual

/-- `json.dumps(v, ensure_ascii=False, indent=2)` at nesting level `lvl`
(with `indent` set, the item separator is `",\n"` and the key separator
`": "`). -/
def dumpJson (lvl : Nat) : Json → String
  | .null => "null"
  | .bool true => "true"
  | .bool false => "false"
  | .num n => toString n
  | .str s => dumpString s
  | .arr [] => "[]"
  | .arr (x :: xs) =>
    "[\n" ++ indentStr (lvl + 1) ++ dumpJson (lvl + 1) x ++
      dumpItems (lvl + 1) xs ++ "\n" ++ indentStr lvl ++ "]"
  | .obj [] => "\x7b\x7d"
  | .obj (kv :: kvs) =>
    "\x7b\n" ++ indentStr (lvl + 1) ++ dumpPair (lvl + 1) kv ++
      dumpPairs (lvl + 1) kvs ++ "\n" ++ indentStr lvl ++ "\x7d"

/-- The remaining items of a JSON array, each preceded by `",\n"` and
its indentation. -/
def dumpItems (lvl : Nat) : List Json → String
  | [] => ""
  | x :: xs => ",\n" ++ indentStr lvl ++ dumpJson lvl x ++ dumpItems lvl xs

/-- One `"key": value` entry of a JSON object. -/
def dumpPair (lvl : Nat) : String × Json → String
  | (k, v) => dumpString k ++ ": " ++ dumpJson lvl v

/-- The remaining entries of a JSON object, each preceded by `",\n"` and
its indentation. -/
def dumpPairs (lvl : Nat) : List (String × Json) → String
  | [] => ""
  | kv :: kvs => ",\n" ++ indentStr lvl ++ dumpPair lvl kv ++ dumpPairs lvl kvs

end

/-- The exact text `_save` passes to `Path.write_text`. -/
def savedText (c : DataCollector) : String :=
  dumpJson 0 (dumpRecords c.records)

/-- The keys of a JSON object, in order. -/
def Json.objKeys : Json → List String
  | .obj fields => fields.map (fun kv => kv.1)
  | _ => []

/-- Whether a JSON value is an object (a Python dict after parsing). -/
def Json.isObj : Json → Bool
  | .obj _ => true
  | _ => false

/-- Whether a JSON value is an array (a Python list after parsing). -/
def Json.isArr : Json → Bool
  | .arr _ => true
  | _ => false

/-! ## Helper lemmas -/

theorem recordOfJson_asdict (r : Record) : recordOfJson (asdict r) = .ok r := rfl

theorem mapRecords_map_asdict (rs : List Record) :
    mapRecords (rs.map asdict) = .ok rs := by
  induction rs with
  | nil => rfl
  | cons r rest ih => simp [mapRecords, recordOfJson_asdict, ih]

/-- Reloading a file written by `_save` recovers the record list exactly. -/
theorem load_dumpRecords (rs : List Record) :
    _load (.valid (dumpRecords rs)) = .ok rs := by
  simp [_load, dumpRecords, pyIter, mapRecords_map_asdict]

theorem digitChar_isDigit (n : Nat) : (digitChar (n % 10)).isDigit = true := by
  have h : n % 10 < 10 := Nat.mod_lt n (by decide)
  interval_cases h : n % 10 <;> decide

theorem isISO8601_isoformatSeconds (d : DateTime) :
    isISO8601 (isoformatSeconds d) = true := by
  simp [isISO8601, isoformatSeconds, digitChar_isDigit]

set_option maxHeartbeats 1000000 in
/-- `Record(**fields)` succeeds exactly when no key is unexpected and
every required field is present. -/
theorem recordOfObj_isOk (fields : List (String × Json)) :
    (∃ r, recordOfObj fields = .ok r) ↔
      (fields.find? (fun kv => !(requiredFields.contains kv.1)) = none ∧
       ∀ k ∈ requiredFields, (lookupField fields k).isSome = true) := by
  unfold recordOfObj
  repeat' split
  all_goals simp_all [requiredFields]
  all_goals assumption

/-- Every failure of `Record(**fields)` is a `TypeError`. -/
theorem recordOfObj_error (fields : List (String × Json)) (e : PyError)
    (h : recordOfObj fields = .error e) : ∃ m, e = .typeError m := by
  unfold recordOfObj at h
  repeat' split at h
  all_goals try exact Except.noConfusion h
  all_goals (injection h with h2; exact ⟨_, h2.symm⟩)

/-- Every failure of `Record(**item)` is a `TypeError`. -/
theorem recordOfJson_error (j : Json) (e : PyError)
    (h : recordOfJson j = .error e) : ∃ m, e = .typeError m := by
  cases j
  case obj fields => exact recordOfObj_error fields e h
  all_goals (simp only [recordOfJson] at h; injection h with h2; exact ⟨_, h2.symm⟩)

/-- `Record(**item)` only succeeds on a mapping. -/
theorem recordOfJson_ok_isObj (j : Json) (r : Record)
    (h : recordOfJson j = .ok r) : j.isObj = true := by
  cases j
  case obj fields => rfl
  all_goals (simp only [recordOfJson] at h; exact Except.noConfusion h)

/-- If the comprehension succeeds, every item was converted. -/
theorem mapRecords_ok_forall (l : List Json) (rs : List Record)
    (h : mapRecords l = .ok rs) :
    ∀ x ∈ l, ∃ r, recordOfJson x = .ok r := by
  induction l generalizing rs with
  | nil => intro x hx; exact absurd hx (List.not_mem_nil x)
  | cons item rest ih =>
    unfold mapRecords at h
    split at h
    · exact Except.noConfusion h
    next r0 hr0 =>
      split at h
      · exact Except.noConfusion h
      next rs0 hrs0 =>
        intro x hx
        rcases List.mem_cons.mp hx with rfl | hx'
        · exact ⟨r0, hr0⟩
        · exact ih rs0 hrs0 x hx'

/-- A failure of the comprehension is the failure of one of its items. -/
theorem mapRecords_error_mem (l : List Json) (e : PyError)
    (h : mapRecords l = .error e) :
    ∃ x ∈ l, recordOfJson x = .error e := by
  induction l with
  | nil => exact Except.noConfusion h
  | cons item rest ih =>
    unfold mapRecords at h
    split at h
    next e0 he0 =>
      injection h with h2
      exact ⟨item, List.mem_cons_self item rest, h2 ▸ he0⟩
    next r0 hr0 =>
      split at h
      next e0 he0 =>
        injection h with h2
        obtain ⟨x, hx, hxe⟩ := ih (h2 ▸ he0)
        exact ⟨x, List.mem_cons_of_mem item hx, hxe⟩
      · exact Except.noConfusion h

/-- If converting every item succeeds, the comprehension succeeds with
one record per item. -/
theorem mapRecords_ok_of_forall (l : List Json)
    (h : ∀ x ∈ l, ∃ r, recordOfJson x = .ok r) :
    ∃ rs, mapRecords l = .ok rs ∧ rs.length = l.length := by
  induction l with
  | nil => exact ⟨[], rfl, rfl⟩
  | cons item rest ih =>
    obtain ⟨r0, hr0⟩ := h item (List.mem_cons_self item rest)
    obtain ⟨rs0, hrs0, hlen⟩ := ih (fun x hx => h x (List.mem_cons_of_mem item hx))
    refine ⟨r0 :: rs0, ?_, by simp [hlen]⟩
    simp [mapRecords, hr0, hrs0]

/-- Running a sequence of successful `add_record` calls appends one
record per call, rewrites the file with the full final record list
(whenever at least one call happened), and returns each new record. -/
theorem runAdds_eq (calls : List AddArgs) (c : DataCollector) (fs : FileState) :
    runAdds c fs calls =
      ({ c with records := c.records ++ calls.map mkRecord },
       (if calls.isEmpty then fs
        else .valid (dumpRecords (c.records ++ calls.map mkRecord))),
       calls.map (fun a => Except.ok (mkRecord a))) := by
  induction calls generalizing c fs with
  | nil => simp [runAdds]
  | cons a rest ih =>
    have hstep :
        runAdds c fs (a :: rest) =
          (let next := runAdds { c with records := c.records ++ [mkRecord a] }
              (FileState.valid (dumpRecords (c.records ++ [mkRecord a]))) rest
           (next.1, next.2.1, Except.ok (mkRecord a) :: next.2.2)) := rfl
    rw [hstep, ih]
    cases rest with
    | nil => simp
    | cons b rest' => simp [List.append_assoc]

/-! ## Claims -/

/-- Claim C3 (counterexample): construction does NOT never-raise — against
a storage file holding the valid JSON `[{"name": "x"}]` (a mapping missing
required fields), the constructor's call to `_load` raises a `TypeError`
that propagates, instead of degrading to an empty records sequence. -/
theorem c3_counterexample :
    construct "collected_data.json"
        (FileState.valid (Json.arr [Json.obj [("name", Json.str "x")]])) =
      .error (PyError.typeError "missing required argument") := rfl

/-- Claim C3 (amended): constructing a `DataCollector` raises no error when
the storage file is absent or its content is not valid JSON — those load
failures degrade to an empty records sequence; construction can still raise
when the file holds valid JSON whose shape does not match `Record`. -/
theorem c3_construction_amended (path : String) :
    construct path FileState.absent =
      .ok ({ storage_path := path, records := [] }, FileState.absent) ∧
    construct path FileState.invalid =
      .ok ({ storage_path := path, records := [] }, FileState.invalid) :=
  ⟨rfl, rfl⟩

/-- Claim C4: for a storage file that exists but whose content is not valid
JSON, `_load` returns an empty records sequence and construction succeeds
with empty records, no error raised. -/
theorem c4_corrupt_file_tolerance (path : String) :
    _load FileState.invalid = .ok [] ∧
    construct path FileState.invalid =
      .ok ({ storage_path := path, records := [] }, FileState.invalid) :=
  ⟨rfl, rfl⟩

/-- Claim C5: constructing against a non-existent path yields an empty
records sequence without error and does not create the file; the file
comes into existence on the first (successful) `add_record` call. -/
theorem c5_missing_file (path name : String) (age : Int)
    (email phone notes timestamp : String) :
    construct path FileState.absent =
      .ok ({ storage_path := path, records := [] }, FileState.absent) ∧
    FileState.fileExists FileState.absent = false ∧
    FileState.fileExists
      (add_record { storage_path := path, records := [] } FileState.absent true
        name age email phone notes timestamp).2.1 = true :=
  ⟨rfl, rfl, rfl⟩

/-- Claim C6: starting from an empty `DataCollector`, after N successful
`add_record` calls the records sequence has length N, element i carries
exactly the i-th call's field values (with its generated timestamp), and
each call returned precisely the record it appended. -/
theorem c6_append_only_growth (path : String) (fs : FileState)
    (calls : List AddArgs) :
    (runAdds { storage_path := path, records := [] } fs calls).1.records.length
        = calls.length ∧
    (runAdds { storage_path := path, records := [] } fs calls).1.records
        = calls.map mkRecord ∧
    (∀ i : Nat,
      (runAdds { storage_path := path, records := [] } fs calls).1.records[i]?
        = (calls[i]?).map mkRecord) ∧
    (runAdds { storage_path := path, records := [] } fs calls).2.2
        = ((runAdds { storage_path := path, records := [] } fs calls).1.records).map
            Except.ok := by
  have h := runAdds_eq calls { storage_path := path, records := [] } fs
  refine ⟨?_, ?_, ?_, ?_⟩ <;> simp [h]

/-- Claim C7: `_save` always writes the JSON array holding one field-name
to value mapping per record — keys in the declared field order `name, age,
email, phone, notes, timestamp` — fully replacing any prior file content,
and the text it writes is `json.dumps(..., ensure_ascii=False, indent=2)`
output, in which every non-ASCII codepoint is written natively, never
escaped. -/
theorem c7_save_format (c : DataCollector) :
    (∀ fs : FileState,
      _save c fs true = (FileState.valid (dumpRecords c.records), .ok ())) ∧
    dumpRecords c.records = Json.arr (c.records.map asdict) ∧
    (∀ r : Record, (asdict r).objKeys = requiredFields) ∧
    savedText c = dumpJson 0 (dumpRecords c.records) ∧
    (∀ ch : Char, 128 ≤ ch.toNat → escapeChar ch = String.singleton ch) := by
  refine ⟨fun fs => rfl, rfl, fun r => rfl, rfl, ?_⟩
  intro ch h
  have hb : ¬ ch = '\\' := fun he => by subst he; exact absurd h (by decide)
  have hq : ¬ ch = '\"' := fun he => by subst he; exact absurd h (by decide)
  have h8 : ¬ ch.toNat = 8 := by omega
  have h9 : ¬ ch.toNat = 9 := by omega
  have h10 : ¬ ch.toNat = 10 := by omega
  have h12 : ¬ ch.toNat = 12 := by omega
  have h13 : ¬ ch.toNat = 13 := by omega
  have h32 : ¬ ch.toNat < 32 := by omega
  simp [escapeChar, hb, hq, h8, h9, h10, h12, h13, h32]

/-- Witness for C7 at a concrete collector and the non-ASCII character
`é` (codepoint 233). -/
theorem c7_witness :
    _save { storage_path := "p", records := [] } FileState.absent true =
      (FileState.valid (dumpRecords []), .ok ()) ∧
    escapeChar 'é' = String.singleton 'é' :=
  ⟨(c7_save_format { storage_path := "p", records := [] }).1 FileState.absent,
   (c7_save_format { storage_path := "p", records := [] }).2.2.2.2 'é' (by decide)⟩

/-- Claim C8: when the save inside `add_record` fails, the `OSError`
propagates to the caller, but the in-memory records sequence already holds
the new record — the append is not rolled back, so memory and disk
diverge (the file was not rewritten with the new record). -/
theorem c8_non_atomic_append (c : DataCollector) (fs : FileState)
    (name : String) (age : Int) (email phone notes timestamp : String) :
    add_record c fs false name age email phone notes timestamp =
      ({ c with records := c.records ++
          [{ name := .str name, age := .num age, email := .str email,
             phone := .str phone, notes := .str notes,
             timestamp := .str timestamp }] },
       fs, .error PyError.osError) := rfl

/-- Claim C10 (counterexample): a storage file whose content is the valid
non-array JSON `{}` does NOT make `load()` raise — iterating an empty dict
yields nothing, so construction silently succeeds with empty records. -/
theorem c10_counterexample :
    construct "collected_data.json" (FileState.valid (Json.obj [])) =
      .ok ({ storage_path := "collected_data.json", records := [] },
           FileState.valid (Json.obj [])) := rfl

/-- Claim C1: for every sequence of field-tuples added through successive
`add_record` calls on a fresh `DataCollector`, constructing a new
`DataCollector` against the resulting storage state yields exactly the
first collector's in-memory records, field for field and in order, and
every stored timestamp is a valid ISO-8601 string. -/
theorem c1_round_trip_persistence (path : String) (calls : List AddArgs) :
    construct path
        (runAdds { storage_path := path, records := [] } FileState.absent calls).2.1 =
      .ok ({ storage_path := path,
             records := (runAdds { storage_path := path, records := [] }
               FileState.absent calls).1.records },
           (runAdds { storage_path := path, records := [] }
             FileState.absent calls).2.1) ∧
    ∀ r ∈ (runAdds { storage_path := path, records := [] }
        FileState.absent calls).1.records,
      ∃ s, r.timestamp = Json.str s ∧ isISO8601 s = true := by
  rw [runAdds_eq]
  constructor
  · cases calls with
    | nil => simp [construct, _load]
    | cons a rest => simp [construct, load_dumpRecords]
  · intro r hr
    simp only [List.nil_append, List.mem_map] at hr
    obtain ⟨a, _, rfl⟩ := hr
    exact ⟨isoformatSeconds a.now, rfl, isISO8601_isoformatSeconds a.now⟩

/-- Witness for C1 with one concrete `add_record` call. -/
theorem c1_witness :
    construct "p"
        (runAdds { storage_path := "p", records := [] } FileState.absent
          [⟨"Somchai", 30, "s@example.com", "0812345678", "",
            ⟨2026, 10, 12, 1, 2, 3⟩⟩]).2.1 =
      .ok ({ storage_path := "p",
             records := (runAdds { storage_path := "p", records := [] }
               FileState.absent
               [⟨"Somchai", 30, "s@example.com", "0812345678", "",
                 ⟨2026, 10, 12, 1, 2, 3⟩⟩]).1.records },
           (runAdds { storage_path := "p", records := [] } FileState.absent
             [⟨"Somchai", 30, "s@example.com", "0812345678", "",
               ⟨2026, 10, 12, 1, 2, 3⟩⟩]).2.1) ∧
    ∃ s, (mkRecord ⟨"Somchai", 30, "s@example.com", "0812345678", "",
      ⟨2026, 10, 12, 1, 2, 3⟩⟩).timestamp = Json.str s ∧ isISO8601 s = true :=
  ⟨(c1_round_trip_persistence "p"
      [⟨"Somchai", 30, "s@example.com", "0812345678", "",
        ⟨2026, 10, 12, 1, 2, 3⟩⟩]).1,
   (c1_round_trip_persistence "p"
      [⟨"Somchai", 30, "s@example.com", "0812345678", "",
        ⟨2026, 10, 12, 1, 2, 3⟩⟩]).2
     (mkRecord ⟨"Somchai", 30, "s@example.com", "0812345678", "",
       ⟨2026, 10, 12, 1, 2, 3⟩⟩)
     (by rw [runAdds_eq]; simp)⟩

/-- Claim C2: a storage file holding a valid JSON array in which some
mapping misses a required `Record` field or carries an unexpected one
makes `_load` — and hence construction — fail with a propagating
`TypeError`, never an empty or partial records sequence. -/
theorem c2_shape_mismatch (path : String) (items : List Json)
    (fields : List (String × Json))
    (hmem : Json.obj fields ∈ items)
    (hbad : (∃ k ∈ requiredFields, lookupField fields k = none) ∨
            (∃ kv ∈ fields, kv.1 ∉ requiredFields)) :
    ∃ m, construct path (FileState.valid (Json.arr items)) =
      .error (PyError.typeError m) := by
  have hnot : ¬ ∃ r, recordOfObj fields = .ok r := by
    rw [recordOfObj_isOk]
    rintro ⟨hfind, hall⟩
    rcases hbad with ⟨k, hk, hnone⟩ | ⟨kv, hkv, hc⟩
    · have := hall k hk
      rw [hnone] at this
      exact Bool.noConfusion this
    · have := List.find?_eq_none.mp hfind kv hkv
      simp only [Bool.not_eq_true', Bool.not_eq_false] at this
      exact hc (by simpa using this)
  cases hload : mapRecords items with
  | ok rs =>
    obtain ⟨r, hr⟩ := mapRecords_ok_forall items rs hload (Json.obj fields) hmem
    exact absurd ⟨r, hr⟩ hnot
  | error e =>
    obtain ⟨x, hx, hxe⟩ := mapRecords_error_mem items e hload
    obtain ⟨m, rfl⟩ := recordOfJson_error x e hxe
    refine ⟨m, ?_⟩
    simp [construct, _load, pyIter, hload]

/-- Witness for C2: the spec's own example file `[{"name": "x"}]`. -/
theorem c2_witness :
    ∃ m, construct "p"
        (FileState.valid (Json.arr [Json.obj [("name", Json.str "x")]])) =
      .error (PyError.typeError m) :=
  c2_shape_mismatch "p" [Json.obj [("name", Json.str "x")]]
    [("name", Json.str "x")] (by simp)
    (Or.inl ⟨"age", by simp [requiredFields], rfl⟩)

/-- Claim C9: `_load` performs no value-type validation — any storage file
holding a JSON array of mappings whose keys are exactly the six `Record`
field names loads successfully, whatever the value types, with one record
per mapping and no error raised. -/
theorem c9_no_value_type_validation (path : String) (items : List Json)
    (hobj : ∀ item ∈ items, ∃ fields, item = Json.obj fields ∧
      (∀ kv ∈ fields, kv.1 ∈ requiredFields) ∧
      (∀ k ∈ requiredFields, (lookupField fields k).isSome = true)) :
    ∃ c : DataCollector,
      construct path (FileState.valid (Json.arr items)) =
        .ok (c, FileState.valid (Json.arr items)) ∧
      c.records.length = items.length := by
  have hall : ∀ item ∈ items, ∃ r, recordOfJson item = .ok r := by
    intro item hitem
    obtain ⟨fields, rfl, hkeys, hsome⟩ := hobj item hitem
    have hfind : fields.find? (fun kv => !(requiredFields.contains kv.1)) = none :=
      List.find?_eq_none.mpr (fun kv hkv => by simp [hkeys kv hkv])
    exact (recordOfObj_isOk fields).mpr ⟨hfind, hsome⟩
  obtain ⟨rs, hrs, hlen⟩ := mapRecords_ok_of_forall items hall
  refine ⟨{ storage_path := path, records := rs }, ?_, hlen⟩
  simp [construct, _load, pyIter, hrs]

/-- Witness for C9: a one-element array whose mapping has exactly the six
keys but an `age` that is a string and a `timestamp` that is a number. -/
theorem c9_witness :
    ∃ c : DataCollector,
      construct "p" (FileState.valid (Json.arr
        [Json.obj [("name", Json.num 1), ("age", Json.str "thirty"),
                   ("email", Json.null), ("phone", Json.bool true),
                   ("notes", Json.arr []), ("timestamp", Json.num 7)]])) =
        .ok (c, FileState.valid (Json.arr
          [Json.obj [("name", Json.num 1), ("age", Json.str "thirty"),
                     ("email", Json.null), ("phone", Json.bool true),
                     ("notes", Json.arr []), ("timestamp", Json.num 7)]])) ∧
      c.records.length = 1 := by
  refine c9_no_value_type_validation "p" _ ?_
  intro item hitem
  simp only [List.mem_singleton] at hitem
  subst hitem
  refine ⟨_, rfl, ?_, ?_⟩
  · intro kv hkv
    simp only [List.mem_cons, List.not_mem_nil, or_false] at hkv
    rcases hkv with rfl | rfl | rfl | rfl | rfl | rfl <;> simp [requiredFields]
  · intro k hk
    simp only [requiredFields, List.mem_cons, List.not_mem_nil, or_false] at hk
    rcases hk with rfl | rfl | rfl | rfl | rfl | rfl <;> rfl

/-- Claim C10 (amended): a storage file whose content is valid JSON but not
an array of string-keyed mappings makes `load()` raise an uncaught
`TypeError` (at iteration or at `Record(**item)`), EXCEPT for the two
contents over which Python's iteration yields no items — the empty object
`{}` and the empty string `""` — which are silently tolerated as empty
record sets. -/
theorem c10_non_array_amended :
    (∀ j : Json, j.isArr = false → j ≠ Json.obj [] → j ≠ Json.str "" →
      ∃ m, _load (FileState.valid j) = .error (PyError.typeError m)) ∧
    (∀ (items : List Json) (item : Json), item ∈ items → item.isObj = false →
      ∃ m, _load (FileState.valid (Json.arr items)) =
        .error (PyError.typeError m)) := by
  constructor
  · intro j h1 h2 h3
    cases j with
    | null => exact ⟨_, rfl⟩
    | bool b => exact ⟨_, rfl⟩
    | num n => exact ⟨_, rfl⟩
    | str s =>
      have hs : s ≠ "" := fun he => h3 (he ▸ rfl)
      cases hdata : s.data with
      | nil => exact absurd (String.ext (by rw [hdata])) hs
      | cons ch rest =>
        exact ⟨"argument after ** must be a mapping",
          by simp [_load, pyIter, hdata, mapRecords, recordOfJson]⟩
    | arr items => simp [Json.isArr] at h1
    | obj fields =>
      cases fields with
      | nil => exact absurd rfl h2
      | cons kv rest =>
        exact ⟨"argument after ** must be a mapping",
          by simp [_load, pyIter, mapRecords, recordOfJson]⟩
  · intro items item hmem hnotobj
    cases hload : mapRecords items with
    | ok rs =>
      obtain ⟨r, hr⟩ := mapRecords_ok_forall items rs hload item hmem
      rw [recordOfJson_ok_isObj item r hr] at hnotobj
      exact Bool.noConfusion hnotobj
    | error e =>
      obtain ⟨x, hx, hxe⟩ := mapRecords_error_mem items e hload
      obtain ⟨m, rfl⟩ := recordOfJson_error x e hxe
      exact ⟨m, by simp [_load, pyIter, hload]⟩

/-- Witness for C10 (amended), at the concrete non-array content `5` and
the concrete array `[5]` containing a non-object. -/
theorem c10_witness :
    (∃ m, _load (FileState.valid (Json.num 5)) =
      .error (PyError.typeError m)) ∧
    (∃ m, _load (FileState.valid (Json.arr [Json.num 5])) =
      .error (PyError.typeError m)) :=
  ⟨c10_non_array_amended.1 (Json.num 5) rfl (by simp) (by simp),
   c10_non_array_amended.2 [Json.num 5] (Json.num 5) (by simp) rfl⟩

end Mizan
